import Mathlib

/-!
Shallow embedding of the `geom2` 2D geometry crate over the real numbers.
`f32` values are modelled as `ℝ` (with `NaN` modelled explicitly where a
claim is about it), `glam::Vec2` as a pair of reals, and fallible /
panicking code as `Option`.  Every definition mirrors the corresponding
Rust item in `src/geom2/src`.
-/

noncomputable section

namespace Geom2

/-- 2D vector over ℝ, modelling `glam::Vec2`. -/
structure Vec2 where
  x : ℝ
  y : ℝ
deriving DecidableEq

namespace Vec2

/-- Componentwise addition (`glam` `Add`). -/
def add (a b : Vec2) : Vec2 := ⟨a.x + b.x, a.y + b.y⟩

/-- Componentwise subtraction (`glam` `Sub`). -/
def sub (a b : Vec2) : Vec2 := ⟨a.x - b.x, a.y - b.y⟩

/-- Scalar multiplication `v * t` (`glam` `Mul<f32>`). -/
def smul (a : Vec2) (t : ℝ) : Vec2 := ⟨a.x * t, a.y * t⟩

/-- Scalar division `v / t` (`glam` `Div<f32>`). -/
def sdiv (a : Vec2) (t : ℝ) : Vec2 := ⟨a.x / t, a.y / t⟩

instance : Add Vec2 := ⟨Vec2.add⟩

instance : Sub Vec2 := ⟨Vec2.sub⟩

instance : HMul Vec2 ℝ Vec2 := ⟨Vec2.smul⟩

instance : HDiv Vec2 ℝ Vec2 := ⟨Vec2.sdiv⟩

/-- Model of `Vec2::dot`. -/
def dot (a b : Vec2) : ℝ := a.x * b.x + a.y * b.y

/-- Model of `Vec2::perp_dot` — the 2D cross product `a.x*b.y - a.y*b.x`. -/
def perpDot (a b : Vec2) : ℝ := a.x * b.y - a.y * b.x

/-- Model of `Vec2::perp` — counter-clockwise rotation by 90 degrees: `(-y, x)`. -/
def perp (a : Vec2) : Vec2 := ⟨-a.y, a.x⟩

/-- Model of `Vec2::length_squared` (`self.dot(self)`). -/
def lengthSquared (a : Vec2) : ℝ := a.dot a

/-- Model of `Vec2::length` (`sqrt` of the squared length). -/
def length (a : Vec2) : ℝ := Real.sqrt a.lengthSquared

/-- Model of `Vec2::abs` — componentwise absolute value. -/
def vabs (a : Vec2) : Vec2 := ⟨|a.x|, |a.y|⟩

/-- Model of `Vec2::max_element` — the larger component. -/
def maxElement (a : Vec2) : ℝ := max a.x a.y

/-- Model of `Vec2::normalize` — `self / length`. -/
def normalize (a : Vec2) : Vec2 := a / a.length

/-- Model of `Vec2::lerp(self, rhs, s) = self + (rhs - self) * s`. -/
def lerp (a b : Vec2) (t : ℝ) : Vec2 := a + (b - a) * t

end Vec2

/-- Model of `Clump { centroid, area }` from `geom2/src/lib.rs`. -/
structure Clump where
  centroid : Vec2
  area : ℝ
deriving DecidableEq

/-- Model of `HalfPlane { normal, offset }` from `geom2/src/half_plane.rs`. -/
structure HalfPlane where
  normal : Vec2
  offset : ℝ
deriving DecidableEq

namespace HalfPlane

/-- Model of `HalfPlane::from_normal`: `offset = -(point · normal)`. -/
def fromNormal (point normal : Vec2) : HalfPlane :=
  { normal := normal, offset := -(point.dot normal) }

/-- Model of `HalfPlane::from_edge`: normal is the normalized `perp` of `b - a`. -/
def fromEdge (a b : Vec2) : HalfPlane :=
  fromNormal a ((b - a).perp.normalize)

/-- Model of `HalfPlane::distance(point) = point·normal - offset`. -/
def distance (h : HalfPlane) (point : Vec2) : ℝ :=
  point.dot h.normal - h.offset

end HalfPlane

/-- Tolerance `EPS = 1e-9` from `geom2/src/line.rs`. -/
def EPS : ℝ := 1e-9

/-- Model of `Line(p0, p1)` — infinite line through two points. -/
structure Line where
  p0 : Vec2
  p1 : Vec2
deriving DecidableEq

/-- Model of `LineSegment(p0, p1)` — bounded segment between two points. -/
structure LineSegment where
  p0 : Vec2
  p1 : Vec2
deriving DecidableEq

/-- Model of `impl Intersect<Line> for Line` from `geom2/src/line.rs`. -/
def lineIntersectLine (self other : Line) : Option Vec2 :=
  let p := self.p0
  let q := other.p0
  let r := self.p1 - self.p0
  let s := other.p1 - other.p0
  let pq := q - p
  let den := r.perpDot s
  let pqr := pq.perpDot r
  let pqs := pq.perpDot s
  if EPS < |den| then
    some (Vec2.lerp self.p0 self.p1 (pqs / den))
  else
    if EPS < r.vabs.maxElement then
      if EPS < s.vabs.maxElement then
        -- Lines are parallel
        if |pqs| < EPS then some p else none
      else
        -- Line `other` is degenerate
        if |pqr| < EPS then some q else none
    else
      if EPS < s.vabs.maxElement then
        -- Line `self` is degenerate
        if |pqs| < EPS then some p else none
      else
        -- Both lines are degenerate
        if pq.vabs.maxElement < EPS then some p else none

/-- Model of `impl Intersect<Line> for LineSegment` from `geom2/src/line.rs`. -/
def segmentIntersectLine (self : LineSegment) (other : Line) : Option Vec2 :=
  let p := self.p0
  let q := other.p0
  let r := self.p1 - self.p0
  let s := other.p1 - other.p0
  let pq := q - p
  let den := r.perpDot s
  let pqr := pq.perpDot r
  let pqs := pq.perpDot s
  if EPS < |den| then
    let u := pqs / den
    if -EPS ≤ u ∧ u ≤ 1 + EPS then some (Vec2.lerp self.p0 self.p1 u) else none
  else
    if EPS < r.vabs.maxElement then
      if EPS < s.vabs.maxElement then
        -- Segment line is parallel to the other line
        if |pqs| < EPS then some (p + r * (0.5 : ℝ)) else none
      else
        -- Line `other` is degenerate
        let u := pq.dot r / r.lengthSquared
        if |pqr| < EPS ∧ (-EPS ≤ u ∧ u ≤ 1 + EPS) then some q else none
    else
      if EPS < s.vabs.maxElement then
        -- Segment `self` is degenerate
        if |pqs| < EPS then some p else none
      else
        -- Both are degenerate
        if pq.vabs.maxElement < EPS then some p else none

/-- Model of `impl Intersect<LineSegment> for Line` — delegates to the mirror. -/
def lineIntersectSegment (self : Line) (other : LineSegment) : Option Vec2 :=
  segmentIntersectLine other self

/-- Model of `impl Intersect<LineSegment> for LineSegment` from `geom2/src/line.rs`. -/
def segmentIntersectSegment (self other : LineSegment) : Option Vec2 :=
  let p := self.p0
  let q := other.p0
  let r := self.p1 - self.p0
  let s := other.p1 - other.p0
  let pq := q - p
  let den := r.perpDot s
  let pqr := pq.perpDot r
  let pqs := pq.perpDot s
  if EPS < |den| then
    let u := pqs / den
    let v := pqr / den
    if (-EPS ≤ u ∧ u ≤ 1 + EPS) ∧ (-EPS ≤ v ∧ v ≤ 1 + EPS) then
      some (Vec2.lerp self.p0 self.p1 u)
    else none
  else
    if EPS < r.vabs.maxElement then
      if EPS < s.vabs.maxElement then
        -- Segments are parallel
        if |pqr| < EPS then
          -- Segments are collinear; check for overlap
          let t0 := pq.dot r / r.lengthSquared
          let t1 := (pq + s).dot r / r.lengthSquared
          let tmin := min t0 t1
          let tmax := max t0 t1
          if tmax < -EPS ∨ 1 + EPS < tmin then none
          else
            -- Return the midpoint of the overlapping region
            some (self.p0 + r * ((max tmin 0 + min tmax 1) * (0.5 : ℝ)))
        else none
      else
        -- Segment `other` is degenerate
        let u := pq.dot r / r.lengthSquared
        if |pqr| < EPS ∧ (-EPS ≤ u ∧ u ≤ 1 + EPS) then some q else none
    else
      if EPS < s.vabs.maxElement then
        -- Segment `self` is degenerate
        let v := -(pq.dot s) / s.lengthSquared
        if |pqs| < EPS ∧ (-EPS ≤ v ∧ v ≤ 1 + EPS) then some p else none
      else
        -- Both segments are degenerate
        if pq.vabs.maxElement < EPS then some p else none

/-- Model of `Circle { center, radius }` from `geom2/src/circle.rs`. -/
structure Circle where
  center : Vec2
  radius : ℝ
deriving DecidableEq

/-- Model of `Circle::clump()`: full-circle Clump `{ centroid: center, area: π·r² }`. -/
def Circle.clump (c : Circle) : Clump :=
  { centroid := c.center, area := Real.pi * c.radius ^ 2 }

/-- Model of `CircleSegment { area, offset }` from `geom2/src/circle.rs` (internal). -/
structure CircleSegment where
  area : ℝ
  offset : ℝ
deriving DecidableEq

namespace CircleSegment

/-- Model of `CircleSegment::new_unit(dist)`: segment area and centroid offset of the
unit-circle chord at signed distance `dist` from the center. -/
def newUnit (dist : ℝ) : CircleSegment :=
  let cosine := max (-1) (min dist 1)
  let sine := Real.sqrt (1 - cosine ^ 2)
  if |cosine| < 1 - 1e-4 then
    let area := Real.arccos cosine - cosine * sine
    { area := area, offset := (2 / 3) * sine ^ 3 / area }
  else
    -- Approximate circle by parabola
    let y := 1 - |cosine|
    let a := (4 / 3) * Real.sqrt (2 * y) * y
    let b := 1 - (3 / 10) * y
    if 0 < cosine then { area := a, offset := b }
    else { area := Real.pi - a, offset := -b * a / (Real.pi - a) }

/-- Model of `CircleSegment::new(radius, dist)`: rescale the unit-circle segment. -/
def new (radius dist : ℝ) : CircleSegment :=
  let s := newUnit (dist / radius)
  { area := s.area * radius ^ 2, offset := s.offset * radius }

end CircleSegment

/-- Model of `impl Intersect<Circle> for HalfPlane` from `geom2/src/circle.rs`. -/
def HalfPlane.intersectCircle (plane : HalfPlane) (circle : Circle) : Option Clump :=
  let dist := circle.center.dot plane.normal - plane.offset
  if dist < circle.radius then
    if -circle.radius < dist then
      let segment := CircleSegment.new circle.radius dist
      some { centroid := circle.center - plane.normal * segment.offset, area := segment.area }
    else
      some { centroid := circle.center, area := Real.pi * circle.radius ^ 2 }
  else none

/-- Model of `impl Intersect<HalfPlane> for Circle` — delegates to the mirror. -/
def Circle.intersectHalfPlane (self : Circle) (other : HalfPlane) : Option Clump :=
  other.intersectCircle self

/-- Model of `impl Intersect<Circle> for Circle` from `geom2/src/circle.rs`. -/
def Circle.intersectCircle (self other : Circle) : Option Clump :=
  let vec := other.center - self.center
  let dist := vec.length
  if dist < self.radius + other.radius then
    if |self.radius - other.radius| < dist then
      let dir := vec / dist
      -- Common chord offsets
      let selfOffset := (0.5 : ℝ) * (dist + (self.radius ^ 2 - other.radius ^ 2) / dist)
      let otherOffset := dist - selfOffset
      let selfSegment := CircleSegment.new self.radius selfOffset
      let otherSegment := CircleSegment.new other.radius otherOffset
      let area := selfSegment.area + otherSegment.area
      some { centroid :=
               ((self.center + dir * selfSegment.offset) * selfSegment.area +
                (other.center - dir * otherSegment.offset) * otherSegment.area) / area,
             area := area }
    else
      let minr := if self.radius < other.radius then self.radius else other.radius
      let minc := if self.radius < other.radius then self.center else other.center
      some { centroid := minc, area := Real.pi * minr ^ 2 }
  else none

/-- Model of `Polygon::clump()` (shoelace formula) from `geom2/src/polygon.rs`,
with the vertex storage modelled as a `List`.  The slice expression
`vertices[1..]` (and `vertices[0]`) panics on an empty slice, which is
modelled by returning `none` for the empty list. -/
def polygonClump (vertices : List Vec2) : Option Clump :=
  match vertices with
  | [] => none
  | v0 :: rest =>
    let nextVertices := rest ++ [v0]
    let acc := (List.zip (v0 :: rest) nextVertices).foldl
      (fun (acc : ℝ × Vec2) ab =>
        let cross := ab.1.perpDot ab.2
        (acc.1 + cross, acc.2 + (ab.1 + ab.2) * cross))
      (0, ⟨0, 0⟩)
    let area := |acc.1| * (0.5 : ℝ)
    some { centroid := acc.2 / (6 * area), area := area }

/-- Model of `Location` from `geom2/src/lib.rs`. -/
inductive Location where
  | Inside
  | AtEdge
  | Outside
deriving DecidableEq

/-- An `f32` value as consumed by `Location::from_distance`: either NaN or an
ordinary (real) value. -/
inductive F32 where
  | nan
  | val (x : ℝ)

/-- Model of `f32::partial_cmp(&0.0)`: `None` for NaN, otherwise the total order on
ordinary values. -/
def F32.cmpZero : F32 → Option Ordering
  | .nan => none
  | .val x => if x < 0 then some .lt else if x = 0 then some .eq else some .gt

/-- Model of `Location::from_distance`: `partial_cmp(&0.0).unwrap()` then match.  The
`unwrap` panics on `None` (NaN input), modelled by `none`. -/
def Location.fromDistance (distance : F32) : Option Location :=
  match distance.cmpZero with
  | none => none
  | some .lt => some .Inside
  | some .eq => some .AtEdge
  | some .gt => some .Outside

/-- Model of `HalfPlane::locate` (impl of `Shape::locate`): classify a point by its
signed distance. -/
def HalfPlane.locate (h : HalfPlane) (point : Vec2) : Option Location :=
  Location.fromDistance (.val (h.distance point))

/-- A Clump over the affinely-extended reals, for `HalfPlane::clump()` which
returns the `f32::INFINITY` sentinel. -/
structure ClumpE where
  centroid : EReal × EReal
  area : EReal

/-- Model of `HalfPlane::clump()` (impl of `Shape::clump`): the unbounded sentinel
`{ centroid: Vec2::INFINITY, area: f32::INFINITY }`. -/
def HalfPlane.clumpE (_h : HalfPlane) : ClumpE :=
  { centroid := (⊤, ⊤), area := ⊤ }

theorem Vec2.add_def (a b : Vec2) : a + b = ⟨a.x + b.x, a.y + b.y⟩ := rfl

theorem Vec2.sub_def (a b : Vec2) : a - b = ⟨a.x - b.x, a.y - b.y⟩ := rfl

theorem Vec2.smul_def (a : Vec2) (t : ℝ) : a * t = ⟨a.x * t, a.y * t⟩ := rfl

theorem Vec2.sdiv_def (a : Vec2) (t : ℝ) : a / t = ⟨a.x / t, a.y / t⟩ := rfl

/-- C1: the spec claims `HalfPlane::from_normal(point, normal)` puts `point` at
distance 0 from the edge.  In the code `offset = -(point·normal)` while
`distance(p) = p·normal - offset`, so `distance(point) = 2·(point·normal)`.
For the unit normal `(0,1)` and `point = (0,2)` the distance is `4`, not `0`. -/
theorem c1_fromNormal_point_not_on_edge :
    (∀ p n : Vec2, (HalfPlane.fromNormal p n).distance p = 2 * p.dot n) ∧
    Vec2.dot ⟨0, 1⟩ ⟨0, 1⟩ = 1 ∧
    (HalfPlane.fromNormal ⟨0, 2⟩ ⟨0, 1⟩).distance ⟨0, 2⟩ = 4 ∧
    (HalfPlane.fromNormal ⟨0, 2⟩ ⟨0, 1⟩).distance ⟨0, 2⟩ ≠ 0 := by
  refine ⟨fun p n => ?_, ?_, ?_, ?_⟩ <;>
    simp [HalfPlane.fromNormal, HalfPlane.distance, Vec2.dot] <;> ring_nf

/-- C7: the spec claims that for `HalfPlane::from_edge(a, b)` the points
strictly to the right of the directed edge `a → b` have negative distance and
`a`, `b` themselves have distance 0.  For `a = (0,1)`, `b = (1,1)` the point
`(1/2, 9/10)` lies strictly to the right (below), yet the code gives it
distance `19/10 > 0`, and gives `a` itself distance `2 ≠ 0`: `from_edge`
inherits the sign error of `from_normal`. -/
theorem c7_fromEdge_right_side_has_positive_distance :
    (HalfPlane.fromEdge ⟨0, 1⟩ ⟨1, 1⟩).distance ⟨1/2, 9/10⟩ = 19/10 ∧
    (HalfPlane.fromEdge ⟨0, 1⟩ ⟨1, 1⟩).distance ⟨0, 1⟩ = 2 := by
  have hlen : Vec2.length ⟨0, 1⟩ = 1 := by
    simp [Vec2.length, Vec2.lengthSquared, Vec2.dot]
  constructor <;>
    simp [HalfPlane.fromEdge, HalfPlane.fromNormal, HalfPlane.distance, Vec2.perp,
      Vec2.normalize, Vec2.sub_def, Vec2.sdiv_def, Vec2.dot] <;>
    norm_num [Vec2.length, Vec2.lengthSquared, Vec2.dot]

/-- C8, counterexample: the spec claims `Polygon::clump()` completes for every
vertex sequence including the empty one, but on an empty slice the expression
`vertices[1..]` (and `vertices[0]`) panics, modelled here by `none`. -/
theorem c8_empty_polygon_panics : polygonClump ([] : List Vec2) = none := rfl

/-- C8, amended: for every non-empty vertex sequence (including the degenerate
one- and two-vertex ones) `Polygon::clump()` completes and returns a Clump;
only the empty sequence panics. -/
theorem c8_nonempty_polygon_clump_total :
    ∀ vertices : List Vec2, vertices ≠ [] → (polygonClump vertices).isSome = true := by
  intro vs h
  match vs with
  | [] => exact absurd rfl h
  | v :: rest => rfl

/-- Witness for C8 at the one-vertex sequence `[(0,0)]`. -/
theorem c8_witness : (polygonClump [(⟨0, 0⟩ : Vec2)]).isSome = true :=
  c8_nonempty_polygon_clump_total [⟨0, 0⟩] (by simp)

/-- C10: `Location::from_distance` classifies every non-NaN distance —
`Inside` for `d < 0`, `AtEdge` for `d = 0`, `Outside` for `d > 0` — and
panics (`unwrap` of `None`) on NaN; `HalfPlane::locate` is exactly
`from_distance` of the signed distance. -/
theorem c10_from_distance_classification :
    (∀ d : ℝ, d < 0 → Location.fromDistance (F32.val d) = some Location.Inside) ∧
    (∀ d : ℝ, d = 0 → Location.fromDistance (F32.val d) = some Location.AtEdge) ∧
    (∀ d : ℝ, 0 < d → Location.fromDistance (F32.val d) = some Location.Outside) ∧
    Location.fromDistance F32.nan = none ∧
    (∀ (h : HalfPlane) (p : Vec2), h.locate p = Location.fromDistance (F32.val (h.distance p))) := by
  refine ⟨fun d hd => ?_, fun d hd => ?_, fun d hd => ?_, rfl, fun h p => rfl⟩
  · simp [Location.fromDistance, F32.cmpZero, hd]
  · simp [Location.fromDistance, F32.cmpZero, hd]
  · simp [Location.fromDistance, F32.cmpZero, not_lt.mpr hd.le, hd.ne']

/-- Witness for C10 at distances `-1` and `1`. -/
theorem c10_witness :
    Location.fromDistance (F32.val (-1)) = some Location.Inside ∧
    Location.fromDistance (F32.val 1) = some Location.Outside :=
  ⟨c10_from_distance_classification.1 (-1) (by norm_num),
   c10_from_distance_classification.2.2.1 1 (by norm_num)⟩

/-- Value of `new_unit` at the far tangency `dist = 1`: empty segment `(0, 1)`. -/
theorem newUnit_one : CircleSegment.newUnit 1 = ⟨0, 1⟩ := by
  have hmax : max (-1 : ℝ) (min 1 1) = 1 := by norm_num
  rw [CircleSegment.newUnit, hmax]
  norm_num

/-- Value of `new_unit` at the near tangency `dist = -1`: full circle `(π, 0)`. -/
theorem newUnit_neg_one : CircleSegment.newUnit (-1) = ⟨Real.pi, 0⟩ := by
  have hmax : max (-1 : ℝ) (min (-1) 1) = -1 := by norm_num
  rw [CircleSegment.newUnit, hmax]
  norm_num

/-- Value of `new_unit` at the center chord `dist = 0`: half-circle area `π/2`. -/
theorem newUnit_zero_area : (CircleSegment.newUnit 0).area = Real.pi / 2 := by
  have hmax : max (-1 : ℝ) (min 0 1) = 0 := by norm_num
  rw [CircleSegment.newUnit, hmax]
  norm_num [Real.arccos_zero]

/-- C6: tangency boundary values of the chord-segment sub-algorithm for any
radius `R > 0`: `circle_segment(R, R) = {area: 0, offset: R}`,
`circle_segment(R, -R) = {area: π·R², offset: 0}`, and
`circle_segment(R, 0).area = π·R²/2`. -/
theorem c6_circle_segment_tangency (R : ℝ) (hR : 0 < R) :
    CircleSegment.new R R = ⟨0, R⟩ ∧
    CircleSegment.new R (-R) = ⟨Real.pi * R ^ 2, 0⟩ ∧
    (CircleSegment.new R 0).area = Real.pi * R ^ 2 / 2 := by
  have hRR : R / R = 1 := div_self hR.ne'
  have hRN : -R / R = -1 := by rw [neg_div, hRR]
  have h0 : (0 : ℝ) / R = 0 := zero_div R
  refine ⟨?_, ?_, ?_⟩
  · rw [CircleSegment.new, hRR, newUnit_one]
    norm_num
  · rw [CircleSegment.new, hRN, newUnit_neg_one]
    norm_num
  · rw [CircleSegment.new, h0]
    show (CircleSegment.newUnit 0).area * R ^ 2 = _
    rw [newUnit_zero_area]
    ring

/-- Witness for C6 at the radius `R = 1.234` named by the spec. -/
theorem c6_witness :
    CircleSegment.new 1.234 1.234 = ⟨0, 1.234⟩ ∧
    CircleSegment.new 1.234 (-1.234) = ⟨Real.pi * 1.234 ^ 2, 0⟩ ∧
    (CircleSegment.new 1.234 0).area = Real.pi * 1.234 ^ 2 / 2 :=
  c6_circle_segment_tangency 1.234 (by norm_num)

/-- C2, counterexample: for the unit-normal half-plane `{normal: (0,1),
offset: 0}` and the radius-0 circle centered at the origin, the distance is
`d = 0`, so the claim's regimes `None ⟺ d ≥ r` and `d ≤ -r ⟹ full circle`
overlap and contradict each other; the code returns `None`, not the claimed
full-circle Clump. -/
theorem c2_degenerate_tangent_circle :
    Vec2.dot ⟨0, 1⟩ ⟨0, 1⟩ = 1 ∧
    (0 : ℝ) ≤ 0 ∧
    HalfPlane.distance ⟨⟨0, 1⟩, 0⟩ ⟨0, 0⟩ ≤ -(0 : ℝ) ∧
    HalfPlane.intersectCircle ⟨⟨0, 1⟩, 0⟩ ⟨⟨0, 0⟩, 0⟩ = none ∧
    HalfPlane.intersectCircle ⟨⟨0, 1⟩, 0⟩ ⟨⟨0, 0⟩, 0⟩ ≠
      some { centroid := ⟨0, 0⟩, area := Real.pi * 0 ^ 2 } := by
  refine ⟨by norm_num [Vec2.dot], le_refl 0, ?_, ?_, ?_⟩
  · norm_num [HalfPlane.distance, Vec2.dot]
  · norm_num [HalfPlane.intersectCircle, Vec2.dot]
  · intro hcontra
    norm_num [HalfPlane.intersectCircle, Vec2.dot] at hcontra
    exact Option.noConfusion hcontra

/-- C2, amended: for every circle with radius `r ≥ 0` and half-plane with unit
normal, with `d` the signed distance of the center: the intersection is `None`
iff `d ≥ r`; it is the full-circle Clump when `d ≤ -r` **and** `d < r`; it is
the chord-segment Clump when `-r < d < r`; and `Circle::intersect(&HalfPlane)`
delegates to the same computation.  (The only change from the claim is the
extra `d < r` guard on the full-circle regime, forced by the degenerate point
`r = 0`, `d = 0` where the claim contradicts its own `None` regime.) -/
theorem c2_halfplane_circle_regimes (plane : HalfPlane) (circle : Circle)
    (_hn : plane.normal.dot plane.normal = 1) (_hr : 0 ≤ circle.radius) :
    (plane.intersectCircle circle = none ↔
       circle.radius ≤ plane.distance circle.center) ∧
    (plane.distance circle.center ≤ -circle.radius →
       plane.distance circle.center < circle.radius →
       plane.intersectCircle circle =
         some { centroid := circle.center, area := Real.pi * circle.radius ^ 2 }) ∧
    (-circle.radius < plane.distance circle.center →
       plane.distance circle.center < circle.radius →
       plane.intersectCircle circle =
         some { centroid := circle.center - plane.normal *
                  (CircleSegment.new circle.radius (plane.distance circle.center)).offset,
                area :=
                  (CircleSegment.new circle.radius (plane.distance circle.center)).area }) ∧
    circle.intersectHalfPlane plane = plane.intersectCircle circle := by
  have hd : circle.center.dot plane.normal - plane.offset = plane.distance circle.center := rfl
  refine ⟨?_, ?_, ?_, rfl⟩
  · rw [HalfPlane.intersectCircle]
    simp only [hd]
    by_cases h1 : plane.distance circle.center < circle.radius
    · rw [if_pos h1]
      have hnotle : ¬ circle.radius ≤ plane.distance circle.center := not_le.mpr h1
      by_cases h2 : -circle.radius < plane.distance circle.center <;>
        simp [h2, hnotle]
    · rw [if_neg h1]
      simp [not_lt.mp h1]
  · intro hle hlt
    rw [HalfPlane.intersectCircle]
    simp only [hd]
    rw [if_pos hlt, if_neg (not_lt.mpr hle)]
  · intro hgt hlt
    rw [HalfPlane.intersectCircle]
    simp only [hd]
    rw [if_pos hlt, if_pos hgt]

/-- Witness for C2 at the half-plane `{normal: (0,1), offset: 0}` and the unit
circle at the origin. -/
theorem c2_witness :
    ((⟨⟨0, 1⟩, 0⟩ : HalfPlane).intersectCircle ⟨⟨0, 0⟩, 1⟩ = none ↔
       (⟨⟨0, 0⟩, 1⟩ : Circle).radius ≤
         HalfPlane.distance ⟨⟨0, 1⟩, 0⟩ (Circle.center ⟨⟨0, 0⟩, 1⟩)) ∧
    (HalfPlane.distance ⟨⟨0, 1⟩, 0⟩ (Circle.center ⟨⟨0, 0⟩, 1⟩) ≤
         -(⟨⟨0, 0⟩, 1⟩ : Circle).radius →
       HalfPlane.distance ⟨⟨0, 1⟩, 0⟩ (Circle.center ⟨⟨0, 0⟩, 1⟩) <
         (⟨⟨0, 0⟩, 1⟩ : Circle).radius →
       (⟨⟨0, 1⟩, 0⟩ : HalfPlane).intersectCircle ⟨⟨0, 0⟩, 1⟩ =
         some { centroid := Circle.center ⟨⟨0, 0⟩, 1⟩,
                area := Real.pi * (⟨⟨0, 0⟩, 1⟩ : Circle).radius ^ 2 }) ∧
    (-(⟨⟨0, 0⟩, 1⟩ : Circle).radius <
         HalfPlane.distance ⟨⟨0, 1⟩, 0⟩ (Circle.center ⟨⟨0, 0⟩, 1⟩) →
       HalfPlane.distance ⟨⟨0, 1⟩, 0⟩ (Circle.center ⟨⟨0, 0⟩, 1⟩) <
         (⟨⟨0, 0⟩, 1⟩ : Circle).radius →
       (⟨⟨0, 1⟩, 0⟩ : HalfPlane).intersectCircle ⟨⟨0, 0⟩, 1⟩ =
         some { centroid := Circle.center ⟨⟨0, 0⟩, 1⟩ - HalfPlane.normal ⟨⟨0, 1⟩, 0⟩ *
                  (CircleSegment.new (⟨⟨0, 0⟩, 1⟩ : Circle).radius
                    (HalfPlane.distance ⟨⟨0, 1⟩, 0⟩ (Circle.center ⟨⟨0, 0⟩, 1⟩))).offset,
                area :=
                  (CircleSegment.new (⟨⟨0, 0⟩, 1⟩ : Circle).radius
                    (HalfPlane.distance ⟨⟨0, 1⟩, 0⟩ (Circle.center ⟨⟨0, 0⟩, 1⟩))).area }) ∧
    Circle.intersectHalfPlane ⟨⟨0, 0⟩, 1⟩ ⟨⟨0, 1⟩, 0⟩ =
      (⟨⟨0, 1⟩, 0⟩ : HalfPlane).intersectCircle ⟨⟨0, 0⟩, 1⟩ :=
  c2_halfplane_circle_regimes ⟨⟨0, 1⟩, 0⟩ ⟨⟨0, 0⟩, 1⟩ (by norm_num [Vec2.dot]) (by norm_num)

/-- C5, counterexample: for circles `{center: (0,0), r1 = 1}` and
`{center: (1,0), r2 = 0}` the center distance is `1 = r1 + r2` and also
`1 ≤ |r1 − r2|`, so the claim's `None ⟺ dist ≥ r1+r2` regime and its
containment regime (`dist ≤ |r1−r2| ⟹` smaller circle's full Clump) both
apply and contradict each other; the code returns `None`, not the claimed
full Clump of the smaller circle. -/
theorem c5_degenerate_tangent_circles :
    (0 : ℝ) ≤ 1 ∧ (0 : ℝ) ≤ 0 ∧
    Vec2.length (Vec2.sub ⟨1, 0⟩ ⟨0, 0⟩) ≤ |(1 : ℝ) - 0| ∧
    Circle.intersectCircle ⟨⟨0, 0⟩, 1⟩ ⟨⟨1, 0⟩, 0⟩ = none ∧
    Circle.intersectCircle ⟨⟨0, 0⟩, 1⟩ ⟨⟨1, 0⟩, 0⟩ ≠
      some { centroid := ⟨1, 0⟩, area := Real.pi * 0 ^ 2 } := by
  have hlen : Vec2.length (Vec2.sub ⟨1, 0⟩ ⟨0, 0⟩) = 1 := by
    show Real.sqrt _ = 1
    norm_num [Vec2.lengthSquared, Vec2.dot, Vec2.sub]
  refine ⟨by norm_num, le_refl 0, by rw [hlen]; norm_num, ?_, ?_⟩
  · rw [Circle.intersectCircle]
    have : Vec2.length (Circle.center ⟨⟨1, 0⟩, 0⟩ - Circle.center ⟨⟨0, 0⟩, 1⟩) = 1 := hlen
    rw [this]
    norm_num
  · intro hcontra
    rw [Circle.intersectCircle] at hcontra
    have : Vec2.length (Circle.center ⟨⟨1, 0⟩, 0⟩ - Circle.center ⟨⟨0, 0⟩, 1⟩) = 1 := hlen
    rw [this] at hcontra
    norm_num at hcontra
    exact Option.noConfusion hcontra

/-- C5, amended: for circles with radii `r1, r2 ≥ 0` and center distance
`dist`: the intersection is `None` iff `dist ≥ r1 + r2`, and when
`dist ≤ |r1 − r2|` **and** `dist < r1 + r2` it is the smaller circle's full
Clump `{area: π·min(r1,r2)², centroid: center of the smaller circle}`.
(The only change from the claim is the extra `dist < r1 + r2` guard on the
containment regime, forced by the degenerate situation where the smaller
radius is 0 and `dist` equals the larger radius, making both regimes apply.) -/
theorem c5_circle_circle_regimes (c1 c2 : Circle)
    (_h1 : 0 ≤ c1.radius) (_h2 : 0 ≤ c2.radius) :
    (Circle.intersectCircle c1 c2 = none ↔
       c1.radius + c2.radius ≤ (c2.center - c1.center).length) ∧
    ((c2.center - c1.center).length ≤ |c1.radius - c2.radius| →
       (c2.center - c1.center).length < c1.radius + c2.radius →
       Circle.intersectCircle c1 c2 =
         some { centroid := if c1.radius < c2.radius then c1.center else c2.center,
                area := Real.pi * min c1.radius c2.radius ^ 2 }) := by
  constructor
  · rw [Circle.intersectCircle]
    by_cases hlt : (c2.center - c1.center).length < c1.radius + c2.radius
    · rw [if_pos hlt]
      have hnotle : ¬ c1.radius + c2.radius ≤ (c2.center - c1.center).length :=
        not_le.mpr hlt
      by_cases hin : |c1.radius - c2.radius| < (c2.center - c1.center).length <;>
        simp [hin, hnotle]
    · rw [if_neg hlt]
      simp [not_lt.mp hlt]
  · intro hcont hlt
    rw [Circle.intersectCircle]
    rw [if_pos hlt, if_neg (not_lt.mpr hcont)]
    have hmin : (if c1.radius < c2.radius then c1.radius else c2.radius) =
        min c1.radius c2.radius := by
      rcases lt_or_le c1.radius c2.radius with h | h
      · rw [if_pos h, min_eq_left h.le]
      · rw [if_neg (not_lt.mpr h), min_eq_right h]
    rw [hmin]

/-- Witness for C5: circle `{(0,0), 3}` contains circle `{(0,1), 1}`. -/
theorem c5_witness :
    (Circle.intersectCircle ⟨⟨0, 0⟩, 3⟩ ⟨⟨0, 1⟩, 1⟩ = none ↔
       (⟨⟨0, 0⟩, 3⟩ : Circle).radius + (⟨⟨0, 1⟩, 1⟩ : Circle).radius ≤
         (Circle.center ⟨⟨0, 1⟩, 1⟩ - Circle.center ⟨⟨0, 0⟩, 3⟩).length) ∧
    ((Circle.center ⟨⟨0, 1⟩, 1⟩ - Circle.center ⟨⟨0, 0⟩, 3⟩).length ≤
         |(⟨⟨0, 0⟩, 3⟩ : Circle).radius - (⟨⟨0, 1⟩, 1⟩ : Circle).radius| →
       (Circle.center ⟨⟨0, 1⟩, 1⟩ - Circle.center ⟨⟨0, 0⟩, 3⟩).length <
         (⟨⟨0, 0⟩, 3⟩ : Circle).radius + (⟨⟨0, 1⟩, 1⟩ : Circle).radius →
       Circle.intersectCircle ⟨⟨0, 0⟩, 3⟩ ⟨⟨0, 1⟩, 1⟩ =
         some { centroid := if (⟨⟨0, 0⟩, 3⟩ : Circle).radius < (⟨⟨0, 1⟩, 1⟩ : Circle).radius
                  then Circle.center ⟨⟨0, 0⟩, 3⟩ else Circle.center ⟨⟨0, 1⟩, 1⟩,
                area := Real.pi *
                  min (⟨⟨0, 0⟩, 3⟩ : Circle).radius (⟨⟨0, 1⟩, 1⟩ : Circle).radius ^ 2 }) :=
  c5_circle_circle_regimes ⟨⟨0, 0⟩, 3⟩ ⟨⟨0, 1⟩, 1⟩ (by norm_num) (by norm_num)

/-- C3: for non-degenerate collinear segments (`|r×s| ≤ ε`, `|(q−p)×r| < ε`,
both max-abs-components above `ε`), `Segment∩Segment` projects both segments
onto `r`, returns `None` when the projected interval is empty
(`t_max < −ε` or `t_min > 1+ε`), and otherwise the midpoint of the clamped
overlap `[max(0,t_min), min(1,t_max)]` in `s1`'s parametrization; in
particular `(0,0)-(4,0) ∩ (1,0)-(3,0) = (2,0)` and
`(0,0)-(1,0) ∩ (2,0)-(3,0) = None`. -/
theorem c3_segment_collinear_overlap (s1 s2 : LineSegment)
    (hr : EPS < (s1.p1 - s1.p0).vabs.maxElement)
    (hs : EPS < (s2.p1 - s2.p0).vabs.maxElement)
    (hden : |(s1.p1 - s1.p0).perpDot (s2.p1 - s2.p0)| ≤ EPS)
    (hcol : |(s2.p0 - s1.p0).perpDot (s1.p1 - s1.p0)| < EPS) :
    ((max ((s2.p0 - s1.p0).dot (s1.p1 - s1.p0) / (s1.p1 - s1.p0).lengthSquared)
          (((s2.p0 - s1.p0) + (s2.p1 - s2.p0)).dot (s1.p1 - s1.p0) /
            (s1.p1 - s1.p0).lengthSquared) < -EPS ∨
      1 + EPS < min ((s2.p0 - s1.p0).dot (s1.p1 - s1.p0) / (s1.p1 - s1.p0).lengthSquared)
          (((s2.p0 - s1.p0) + (s2.p1 - s2.p0)).dot (s1.p1 - s1.p0) /
            (s1.p1 - s1.p0).lengthSquared)) →
      segmentIntersectSegment s1 s2 = none) ∧
    (¬(max ((s2.p0 - s1.p0).dot (s1.p1 - s1.p0) / (s1.p1 - s1.p0).lengthSquared)
          (((s2.p0 - s1.p0) + (s2.p1 - s2.p0)).dot (s1.p1 - s1.p0) /
            (s1.p1 - s1.p0).lengthSquared) < -EPS ∨
       1 + EPS < min ((s2.p0 - s1.p0).dot (s1.p1 - s1.p0) / (s1.p1 - s1.p0).lengthSquared)
          (((s2.p0 - s1.p0) + (s2.p1 - s2.p0)).dot (s1.p1 - s1.p0) /
            (s1.p1 - s1.p0).lengthSquared)) →
      segmentIntersectSegment s1 s2 =
        some (s1.p0 + (s1.p1 - s1.p0) *
          ((max (min ((s2.p0 - s1.p0).dot (s1.p1 - s1.p0) / (s1.p1 - s1.p0).lengthSquared)
                  (((s2.p0 - s1.p0) + (s2.p1 - s2.p0)).dot (s1.p1 - s1.p0) /
                    (s1.p1 - s1.p0).lengthSquared)) 0 +
            min (max ((s2.p0 - s1.p0).dot (s1.p1 - s1.p0) / (s1.p1 - s1.p0).lengthSquared)
                  (((s2.p0 - s1.p0) + (s2.p1 - s2.p0)).dot (s1.p1 - s1.p0) /
                    (s1.p1 - s1.p0).lengthSquared)) 1) * (0.5 : ℝ)))) ∧
    segmentIntersectSegment ⟨⟨0, 0⟩, ⟨4, 0⟩⟩ ⟨⟨1, 0⟩, ⟨3, 0⟩⟩ = some ⟨2, 0⟩ ∧
    segmentIntersectSegment ⟨⟨0, 0⟩, ⟨1, 0⟩⟩ ⟨⟨2, 0⟩, ⟨3, 0⟩⟩ = none := by
  have hnd : ¬ EPS < |(s1.p1 - s1.p0).perpDot (s2.p1 - s2.p0)| := not_lt.mpr hden
  refine ⟨?_, ?_, ?_, ?_⟩
  · intro hcond
    rw [segmentIntersectSegment, if_neg hnd, if_pos hr, if_pos hs, if_pos hcol, if_pos hcond]
  · intro hcond
    rw [segmentIntersectSegment, if_neg hnd, if_pos hr, if_pos hs, if_pos hcol, if_neg hcond]
  · norm_num [segmentIntersectSegment, EPS, Vec2.perpDot, Vec2.dot, Vec2.lengthSquared,
      Vec2.vabs, Vec2.maxElement, Vec2.sub_def, Vec2.add_def, Vec2.smul_def, min_def, max_def]
  · norm_num [segmentIntersectSegment, EPS, Vec2.perpDot, Vec2.dot, Vec2.lengthSquared,
      Vec2.vabs, Vec2.maxElement, Vec2.sub_def, Vec2.add_def, Vec2.smul_def, min_def, max_def]

/-- Witness for C3 at the spec's own scenario `(0,0)-(4,0)` vs `(1,0)-(3,0)`. -/
theorem c3_witness :
    segmentIntersectSegment ⟨⟨0, 0⟩, ⟨4, 0⟩⟩ ⟨⟨1, 0⟩, ⟨3, 0⟩⟩ = some ⟨2, 0⟩ ∧
    segmentIntersectSegment ⟨⟨0, 0⟩, ⟨1, 0⟩⟩ ⟨⟨2, 0⟩, ⟨3, 0⟩⟩ = none :=
  ⟨(c3_segment_collinear_overlap ⟨⟨0, 0⟩, ⟨4, 0⟩⟩ ⟨⟨1, 0⟩, ⟨3, 0⟩⟩
      (by norm_num [EPS, Vec2.sub_def, Vec2.vabs, Vec2.maxElement])
      (by norm_num [EPS, Vec2.sub_def, Vec2.vabs, Vec2.maxElement])
      (by norm_num [EPS, Vec2.sub_def, Vec2.perpDot])
      (by norm_num [EPS, Vec2.sub_def, Vec2.perpDot])).2.2.1,
   (c3_segment_collinear_overlap ⟨⟨0, 0⟩, ⟨4, 0⟩⟩ ⟨⟨1, 0⟩, ⟨3, 0⟩⟩
      (by norm_num [EPS, Vec2.sub_def, Vec2.vabs, Vec2.maxElement])
      (by norm_num [EPS, Vec2.sub_def, Vec2.vabs, Vec2.maxElement])
      (by norm_num [EPS, Vec2.sub_def, Vec2.perpDot])
      (by norm_num [EPS, Vec2.sub_def, Vec2.perpDot])).2.2.2⟩

/-- Two `Vec2` values with equal components are equal. -/
theorem vecExt {a b : Vec2} (hx : a.x = b.x) (hy : a.y = b.y) : a = b := by
  cases a
  cases b
  cases hx
  cases hy
  rfl

/-- C4, counterexample: the claim demands `A.intersect(&B)` and
`B.intersect(&A)` be `None` together or `Some` together for every pair.  For
the collinear-within-tolerance segments `A = (0,0)-(1,0)` and
`B = (0,1e-11)-(1000,1e-11)`, `A∩B` tests `|(q−p)×r| = 1e-11 < ε` and
returns the overlap midpoint, while `B∩A` tests `|(p−q)×s| = 1e-8 ≥ ε` and
returns `None`: the two collinearity indicators disagree. -/
theorem c4_symmetry_counterexample :
    segmentIntersectSegment ⟨⟨0, 0⟩, ⟨1, 0⟩⟩ ⟨⟨0, 1e-11⟩, ⟨1000, 1e-11⟩⟩ =
      some ⟨1/2, 0⟩ ∧
    segmentIntersectSegment ⟨⟨0, 1e-11⟩, ⟨1000, 1e-11⟩⟩ ⟨⟨0, 0⟩, ⟨1, 0⟩⟩ = none ∧
    ¬(segmentIntersectSegment ⟨⟨0, 0⟩, ⟨1, 0⟩⟩ ⟨⟨0, 1e-11⟩, ⟨1000, 1e-11⟩⟩ = none ↔
      segmentIntersectSegment ⟨⟨0, 1e-11⟩, ⟨1000, 1e-11⟩⟩ ⟨⟨0, 0⟩, ⟨1, 0⟩⟩ = none) := by
  have h1 : segmentIntersectSegment ⟨⟨0, 0⟩, ⟨1, 0⟩⟩ ⟨⟨0, 1e-11⟩, ⟨1000, 1e-11⟩⟩ =
      some ⟨1/2, 0⟩ := by
    norm_num [segmentIntersectSegment, EPS, Vec2.perpDot, Vec2.dot, Vec2.lengthSquared,
      Vec2.vabs, Vec2.maxElement, Vec2.sub_def, Vec2.add_def, Vec2.smul_def, min_def, max_def,
      abs_of_pos, abs_of_nonneg]
  have h2 : segmentIntersectSegment ⟨⟨0, 1e-11⟩, ⟨1000, 1e-11⟩⟩ ⟨⟨0, 0⟩, ⟨1, 0⟩⟩ = none := by
    norm_num [segmentIntersectSegment, EPS, Vec2.perpDot, Vec2.dot, Vec2.lengthSquared,
      Vec2.vabs, Vec2.maxElement, Vec2.sub_def, Vec2.add_def, Vec2.smul_def, min_def, max_def,
      abs_of_pos, abs_of_nonneg]
  refine ⟨h1, h2, fun hiff => ?_⟩
  rw [h1, h2] at hiff
  simp at hiff

/-- C4, amended: symmetry of intersection holds for Line-vs-LineSegment pairs
unconditionally (one direction delegates to the other), and for Line∩Line and
Segment∩Segment whenever `|r×s| > ε` (a genuine transversal crossing), with
exactly equal points; in the parallel branch (`|r×s| ≤ ε`) the two call
orders test collinearity against different operands (`(q−p)×r` vs `(p−q)×s`)
and symmetry can fail, as the counterexample shows. -/
theorem c4_intersection_symmetry_amended :
    (∀ l1 l2 : Line, EPS < |(l1.p1 - l1.p0).perpDot (l2.p1 - l2.p0)| →
      lineIntersectLine l1 l2 = lineIntersectLine l2 l1) ∧
    (∀ (l : Line) (s : LineSegment), lineIntersectSegment l s = segmentIntersectLine s l) ∧
    (∀ s1 s2 : LineSegment, EPS < |(s1.p1 - s1.p0).perpDot (s2.p1 - s2.p0)| →
      segmentIntersectSegment s1 s2 = segmentIntersectSegment s2 s1) := by
  have heps : (0 : ℝ) < EPS := by norm_num [EPS]
  refine ⟨?_, fun l s => rfl, ?_⟩
  · intro l1 l2 h
    have hswap : (l2.p1 - l2.p0).perpDot (l1.p1 - l1.p0) =
        -((l1.p1 - l1.p0).perpDot (l2.p1 - l2.p0)) := by
      simp only [Vec2.perpDot, Vec2.sub_def]
      ring
    have h2 : EPS < |(l2.p1 - l2.p0).perpDot (l1.p1 - l1.p0)| := by
      rw [hswap, abs_neg]
      exact h
    have hne : (l1.p1 - l1.p0).perpDot (l2.p1 - l2.p0) ≠ 0 := by
      intro h0
      rw [h0, abs_zero] at h
      exact absurd h (not_lt.mpr heps.le)
    have hraw : (l1.p1.x - l1.p0.x) * (l2.p1.y - l2.p0.y) -
        (l1.p1.y - l1.p0.y) * (l2.p1.x - l2.p0.x) ≠ 0 := by
      simpa [Vec2.perpDot, Vec2.sub_def] using hne
    have hraw2 : (l2.p1.x - l2.p0.x) * (l1.p1.y - l1.p0.y) -
        (l2.p1.y - l2.p0.y) * (l1.p1.x - l1.p0.x) ≠ 0 := fun h0 => hraw (by linarith)
    rw [lineIntersectLine, lineIntersectLine, if_pos h, if_pos h2]
    congr 1
    apply vecExt <;>
      · simp only [Vec2.lerp, Vec2.perpDot, Vec2.sub_def, Vec2.add_def, Vec2.smul_def]
        field_simp
        ring
  · intro s1 s2 h
    have hswap : (s2.p1 - s2.p0).perpDot (s1.p1 - s1.p0) =
        -((s1.p1 - s1.p0).perpDot (s2.p1 - s2.p0)) := by
      simp only [Vec2.perpDot, Vec2.sub_def]
      ring
    have h2 : EPS < |(s2.p1 - s2.p0).perpDot (s1.p1 - s1.p0)| := by
      rw [hswap, abs_neg]
      exact h
    have hne : (s1.p1 - s1.p0).perpDot (s2.p1 - s2.p0) ≠ 0 := by
      intro h0
      rw [h0, abs_zero] at h
      exact absurd h (not_lt.mpr heps.le)
    have hraw : (s1.p1.x - s1.p0.x) * (s2.p1.y - s2.p0.y) -
        (s1.p1.y - s1.p0.y) * (s2.p1.x - s2.p0.x) ≠ 0 := by
      simpa [Vec2.perpDot, Vec2.sub_def] using hne
    have hpqs' : (s1.p0 - s2.p0).perpDot (s1.p1 - s1.p0) =
        -((s2.p0 - s1.p0).perpDot (s1.p1 - s1.p0)) := by
      simp only [Vec2.perpDot, Vec2.sub_def]
      ring
    have hpqr' : (s1.p0 - s2.p0).perpDot (s2.p1 - s2.p0) =
        -((s2.p0 - s1.p0).perpDot (s2.p1 - s2.p0)) := by
      simp only [Vec2.perpDot, Vec2.sub_def]
      ring
    rw [segmentIntersectSegment, segmentIntersectSegment, if_pos h, if_pos h2,
      hswap, hpqs', hpqr', neg_div_neg_eq, neg_div_neg_eq]
    set u := (s2.p0 - s1.p0).perpDot (s2.p1 - s2.p0) /
      (s1.p1 - s1.p0).perpDot (s2.p1 - s2.p0) with hu
    set v := (s2.p0 - s1.p0).perpDot (s1.p1 - s1.p0) /
      (s1.p1 - s1.p0).perpDot (s2.p1 - s2.p0) with hv
    by_cases hc : (-EPS ≤ u ∧ u ≤ 1 + EPS) ∧ (-EPS ≤ v ∧ v ≤ 1 + EPS)
    · rw [if_pos hc, if_pos ⟨hc.2, hc.1⟩]
      congr 1
      apply vecExt <;>
        · rw [hu, hv]
          simp only [Vec2.lerp, Vec2.perpDot, Vec2.sub_def, Vec2.add_def, Vec2.smul_def]
          field_simp
          ring
    · rw [if_neg hc, if_neg (fun hc' => hc ⟨hc'.2, hc'.1⟩)]

/-- Witness for C4's amended theorem at the crossing `(0,0)-(2,2)` vs
`(0,2)-(2,0)` and the Line/Segment mirror at the same data. -/
theorem c4_witness :
    lineIntersectLine ⟨⟨0, 0⟩, ⟨2, 2⟩⟩ ⟨⟨0, 2⟩, ⟨2, 0⟩⟩ =
      lineIntersectLine ⟨⟨0, 2⟩, ⟨2, 0⟩⟩ ⟨⟨0, 0⟩, ⟨2, 2⟩⟩ ∧
    lineIntersectSegment ⟨⟨0, 0⟩, ⟨2, 2⟩⟩ ⟨⟨0, 2⟩, ⟨2, 0⟩⟩ =
      segmentIntersectLine ⟨⟨0, 2⟩, ⟨2, 0⟩⟩ ⟨⟨0, 0⟩, ⟨2, 2⟩⟩ ∧
    segmentIntersectSegment ⟨⟨0, 0⟩, ⟨2, 2⟩⟩ ⟨⟨0, 2⟩, ⟨2, 0⟩⟩ =
      segmentIntersectSegment ⟨⟨0, 2⟩, ⟨2, 0⟩⟩ ⟨⟨0, 0⟩, ⟨2, 2⟩⟩ :=
  ⟨c4_intersection_symmetry_amended.1 ⟨⟨0, 0⟩, ⟨2, 2⟩⟩ ⟨⟨0, 2⟩, ⟨2, 0⟩⟩
      (by norm_num [EPS, Vec2.perpDot, Vec2.sub_def]),
   c4_intersection_symmetry_amended.2.1 ⟨⟨0, 0⟩, ⟨2, 2⟩⟩ ⟨⟨0, 2⟩, ⟨2, 0⟩⟩,
   c4_intersection_symmetry_amended.2.2 ⟨⟨0, 0⟩, ⟨2, 2⟩⟩ ⟨⟨0, 2⟩, ⟨2, 0⟩⟩
      (by norm_num [EPS, Vec2.perpDot, Vec2.sub_def])⟩

/-- The unit chord segment computed by `new_unit` always has nonnegative
area, in both the closed-form branch and the parabola branch. -/
theorem newUnit_area_nonneg (d : ℝ) : 0 ≤ (CircleSegment.newUnit d).area := by
  rw [CircleSegment.newUnit]
  set c := max (-1 : ℝ) (min d 1) with hc
  have hc1 : -1 ≤ c := le_max_left _ _
  have hc2 : c ≤ 1 := max_le (by norm_num) (min_le_right _ _)
  by_cases hbr : |c| < 1 - 1e-4
  · rw [if_pos hbr]
    show 0 ≤ Real.arccos c - c * Real.sqrt (1 - c ^ 2)
    rw [(Real.sin_arccos c).symm]
    have h0 : 0 ≤ Real.arccos c := Real.arccos_nonneg c
    have hs0 : 0 ≤ Real.sin (Real.arccos c) :=
      Real.sin_nonneg_of_nonneg_of_le_pi h0 (Real.arccos_le_pi c)
    have hle : c * Real.sin (Real.arccos c) ≤ Real.sin (Real.arccos c) :=
      mul_le_of_le_one_left hs0 hc2
    have hle2 : Real.sin (Real.arccos c) ≤ Real.arccos c := Real.sin_le h0
    linarith
  · rw [if_neg hbr]
    have hcabs : |c| ≤ 1 := abs_le.mpr ⟨hc1, hc2⟩
    have hy0 : 0 ≤ 1 - |c| := by linarith
    by_cases hpos : 0 < c
    · rw [if_pos hpos]
      show 0 ≤ (4 / 3) * Real.sqrt (2 * (1 - |c|)) * (1 - |c|)
      have := Real.sqrt_nonneg (2 * (1 - |c|))
      nlinarith
    · rw [if_neg hpos]
      show 0 ≤ Real.pi - (4 / 3) * Real.sqrt (2 * (1 - |c|)) * (1 - |c|)
      have hyle : 1 - |c| ≤ 1e-4 := by
        have := not_lt.mp hbr
        linarith
      have hsq : Real.sqrt (2 * (1 - |c|)) ≤ 1 := by
        have h1 : 2 * (1 - |c|) ≤ 1 := by linarith
        calc Real.sqrt (2 * (1 - |c|)) ≤ Real.sqrt 1 := Real.sqrt_le_sqrt h1
          _ = 1 := Real.sqrt_one
      have hs0 : 0 ≤ Real.sqrt (2 * (1 - |c|)) := Real.sqrt_nonneg _
      have hpi : (3 : ℝ) < Real.pi := Real.pi_gt_three
      nlinarith

/-- The rescaled segment `CircleSegment::new` always yields nonnegative area. -/
theorem new_area_nonneg (radius dist : ℝ) : 0 ≤ (CircleSegment.new radius dist).area := by
  rw [CircleSegment.new]
  show 0 ≤ (CircleSegment.newUnit (dist / radius)).area * radius ^ 2
  exact mul_nonneg (newUnit_area_nonneg _) (sq_nonneg _)

/-- C9: every Clump the engine produces has `area ≥ 0` — the full-circle
clump, every `Some` result of `HalfPlane∩Circle` and `Circle∩Circle`, and
the polygon shoelace clump — and `HalfPlane::clump()` returns the `+∞`
sentinel area. -/
theorem c9_clump_area_nonneg :
    (∀ c : Circle, 0 ≤ c.radius → 0 ≤ c.clump.area) ∧
    (∀ (hp : HalfPlane) (c : Circle) (cl : Clump), 0 ≤ c.radius →
      hp.intersectCircle c = some cl → 0 ≤ cl.area) ∧
    (∀ (c1 c2 : Circle) (cl : Clump), 0 ≤ c1.radius → 0 ≤ c2.radius →
      Circle.intersectCircle c1 c2 = some cl → 0 ≤ cl.area) ∧
    (∀ vs : List Vec2, 3 ≤ vs.length → ∀ cl : Clump,
      polygonClump vs = some cl → 0 ≤ cl.area) ∧
    (∀ hp : HalfPlane, (hp.clumpE).area = ⊤) := by
  refine ⟨?_, ?_, ?_, ?_, fun hp => rfl⟩
  · intro c _hr
    show 0 ≤ Real.pi * c.radius ^ 2
    positivity
  · intro hp c cl _hr heq
    rw [HalfPlane.intersectCircle] at heq
    split_ifs at heq with h1 h2
    · injection heq with h3
      rw [← h3]
      exact new_area_nonneg _ _
    · injection heq with h3
      rw [← h3]
      show 0 ≤ Real.pi * c.radius ^ 2
      positivity
  · intro c1 c2 cl _h1 _h2 heq
    rw [Circle.intersectCircle] at heq
    split_ifs at heq with h1 h2 h3
    · injection heq with h4
      rw [← h4]
      exact add_nonneg (new_area_nonneg _ _) (new_area_nonneg _ _)
    · injection heq with h4
      rw [← h4]
      show 0 ≤ Real.pi * c1.radius ^ 2
      positivity
    · injection heq with h4
      rw [← h4]
      show 0 ≤ Real.pi * c2.radius ^ 2
      positivity
  · intro vs _hlen cl heq
    match vs with
    | [] => exact Option.noConfusion heq
    | v :: rest =>
      simp only [polygonClump] at heq
      injection heq with h3
      rw [← h3]
      exact mul_nonneg (abs_nonneg _) (by norm_num)

/-- Witness for C9 at the unit circle and an arbitrary half-plane. -/
theorem c9_witness :
    0 ≤ (Circle.clump ⟨⟨0, 0⟩, 1⟩).area ∧ (HalfPlane.clumpE ⟨⟨0, 1⟩, 0⟩).area = ⊤ :=
  ⟨c9_clump_area_nonneg.1 ⟨⟨0, 0⟩, 1⟩ (by norm_num),
   c9_clump_area_nonneg.2.2.2.2 ⟨⟨0, 1⟩, 0⟩⟩

end Geom2
